import Mathlib

/-!
Shallow embedding of the C-utils header macros (two revisions of one header:
`c_utils.h` and a later revision that adds number-manipulation macros), and
proofs of the behavioural claims about them.

Modelling conventions:
- C `int` values are modelled as unbounded `Int` (no claim here exercises
  integer overflow; the range-reduction claims carry the bound precondition
  under which the C arithmetic stays well inside `int` range).
- The ambient error indicator `errno`, the caller's result variable `r`, and
  the text written to `stderr` form an explicit state record `St`.
- Each macro becomes a function from the current state and its arguments to
  an `Outcome` (how control leaves the macro) paired with the new state.
- `stderr` output is a list of `OutputItem`s: one per `fprintf`/`perror`
  call in the macro body, carrying the data the call prints.
- `rand_r` and the clock are external: `RAND_INT` takes the clock reading as
  an `Option Timespec` (`none` models `clock_gettime` returning a negative
  value) and `rand_r` as an abstract function from the seed value to a
  natural number (rand_r returns a nonnegative int in [0, RAND_MAX]).
-/

namespace CUtils

/-- One item written to stderr by a verbose-mode check macro. -/
inductive OutputItem where
  | errorAtLine (line : Nat)
  | perrorMsg (errno : Int)
  | newline
deriving DecidableEq, Repr

/-- How control leaves a check macro: fall through past it, terminate the
process with EXIT_FAILURE, jump to the caller's label `free`, or return
`rval` from the enclosing function. -/
inductive Outcome where
  | proceed
  | exitFailure
  | gotoFree
  | ret (rval : Int)
deriving DecidableEq, Repr

/-- The state a check macro can read or write: the ambient error indicator
`errno`, the caller's result variable `r`, and the stderr output so far. -/
structure St where
  errno : Int
  r : Int
  output : List OutputItem
deriving DecidableEq, Repr

/-- Clock reading of `clock_gettime`, on success. -/
structure Timespec where
  tv_sec : Int
  tv_nsec : Int
deriving DecidableEq, Repr

namespace Part000

/-- Verbose CHECK_ERR_AND_EXIT (later revision, lines 30-41): if val < 0,
print the line message, then perror when errno > 0 else a newline, then
exit(EXIT_FAILURE). errno is not cleared on this variant. -/
def CHECK_ERR_AND_EXIT_verbose (line : Nat) (s : St) (val : Int) : Outcome × St :=
  if val < 0 then
    let s1 : St := { s with output := s.output ++ [OutputItem.errorAtLine line] }
    if s1.errno > 0 then
      (Outcome.exitFailure, { s1 with output := s1.output ++ [OutputItem.perrorMsg s1.errno] })
    else
      (Outcome.exitFailure, { s1 with output := s1.output ++ [OutputItem.newline] })
  else
    (Outcome.proceed, s)

/-- Verbose CHECK_ERR_AND_FREE (later revision, lines 54-67): if val < 0,
set r to r_val, print the line message, then perror and clear errno when
errno > 0 else print a newline, then goto free. -/
def CHECK_ERR_AND_FREE_verbose (line : Nat) (s : St) (val r_val : Int) : Outcome × St :=
  if val < 0 then
    let s1 : St := { s with r := r_val }
    let s2 : St := { s1 with output := s1.output ++ [OutputItem.errorAtLine line] }
    if s2.errno > 0 then
      (Outcome.gotoFree,
        { s2 with output := s2.output ++ [OutputItem.perrorMsg s2.errno], errno := 0 })
    else
      (Outcome.gotoFree, { s2 with output := s2.output ++ [OutputItem.newline] })
  else
    (Outcome.proceed, s)

/-- Verbose CHECK_ERR_AND_RETURN (later revision, lines 79-91): if val < 0,
print the line message, then perror and clear errno when errno > 0 else
print a newline, then return r_val. -/
def CHECK_ERR_AND_RETURN_verbose (line : Nat) (s : St) (val r_val : Int) : Outcome × St :=
  if val < 0 then
    let s1 : St := { s with output := s.output ++ [OutputItem.errorAtLine line] }
    if s1.errno > 0 then
      (Outcome.ret r_val,
        { s1 with output := s1.output ++ [OutputItem.perrorMsg s1.errno], errno := 0 })
    else
      (Outcome.ret r_val, { s1 with output := s1.output ++ [OutputItem.newline] })
  else
    (Outcome.proceed, s)

/-- Silent CHECK_ERR_AND_EXIT (later revision, lines 102-103). -/
def CHECK_ERR_AND_EXIT_silent (s : St) (val : Int) : Outcome × St :=
  if val < 0 then (Outcome.exitFailure, s) else (Outcome.proceed, s)

/-- Silent CHECK_ERR_AND_FREE (later revision, lines 114-120). -/
def CHECK_ERR_AND_FREE_silent (s : St) (val r_val : Int) : Outcome × St :=
  if val < 0 then (Outcome.gotoFree, { s with r := r_val }) else (Outcome.proceed, s)

/-- Silent CHECK_ERR_AND_RETURN (later revision, lines 130-135). -/
def CHECK_ERR_AND_RETURN_silent (s : St) (val r_val : Int) : Outcome × St :=
  if val < 0 then (Outcome.ret r_val, s) else (Outcome.proceed, s)

/-- MIN (later revision, line 152): (((x) <= (y)) ? (x) : (y)). -/
def MIN (x y : Int) : Int :=
  if x ≤ y then x else y

/-- MAX (later revision, line 161): (((x) >= (y)) ? (x) : (y)). -/
def MAX (x y : Int) : Int :=
  if x ≥ y then x else y

/-- RAND_INT (later revision, lines 174-184). `clock` is the result of
clock_gettime: `none` when it returns a negative value. `rand_r` abstracts
the composition of the pointer cast of the seed t with rand_r, returning a
nonnegative value. `err` is the int pointed to by the err argument (`none`
models a null err). Returns the value written to var paired with the final
contents of the err location. C `%` on a nonnegative dividend and positive
divisor agrees with `Int.emod`. -/
def RAND_INT (clock : Option Timespec) (rand_r : Int → Nat)
    (a b : Int) (err : Option Int) : Int × Option Int :=
  match clock with
  | none => (0, err.map fun _ => (-1 : Int))
  | some ts =>
      let t : Int := ts.tv_sec * 1000000 + ts.tv_nsec
      (((rand_r t : Int) % (b - a + 1)) + a, err)

/-- Effectful verbose CHECK_ERR_AND_EXIT: the `(val)` argument is an
expression `eff` that may touch the state (for example a library call that
sets errno); it appears exactly once in the macro body, at the position of
the single textual occurrence of `(val)` in the source. -/
def CHECK_ERR_AND_EXIT_verbose_eff (line : Nat) (eff : St → Int × St) (s : St) : Outcome × St :=
  let p := eff s
  if p.1 < 0 then
    let s1 : St := { p.2 with output := p.2.output ++ [OutputItem.errorAtLine line] }
    if s1.errno > 0 then
      (Outcome.exitFailure, { s1 with output := s1.output ++ [OutputItem.perrorMsg s1.errno] })
    else
      (Outcome.exitFailure, { s1 with output := s1.output ++ [OutputItem.newline] })
  else
    (Outcome.proceed, p.2)

/-- Effectful verbose CHECK_ERR_AND_FREE: `(val)` evaluated at its single
textual occurrence. -/
def CHECK_ERR_AND_FREE_verbose_eff (line : Nat) (eff : St → Int × St) (s : St)
    (r_val : Int) : Outcome × St :=
  let p := eff s
  if p.1 < 0 then
    let s1 : St := { p.2 with r := r_val }
    let s2 : St := { s1 with output := s1.output ++ [OutputItem.errorAtLine line] }
    if s2.errno > 0 then
      (Outcome.gotoFree,
        { s2 with output := s2.output ++ [OutputItem.perrorMsg s2.errno], errno := 0 })
    else
      (Outcome.gotoFree, { s2 with output := s2.output ++ [OutputItem.newline] })
  else
    (Outcome.proceed, p.2)

/-- Effectful verbose CHECK_ERR_AND_RETURN: `(val)` evaluated at its single
textual occurrence. -/
def CHECK_ERR_AND_RETURN_verbose_eff (line : Nat) (eff : St → Int × St) (s : St)
    (r_val : Int) : Outcome × St :=
  let p := eff s
  if p.1 < 0 then
    let s1 : St := { p.2 with output := p.2.output ++ [OutputItem.errorAtLine line] }
    if s1.errno > 0 then
      (Outcome.ret r_val,
        { s1 with output := s1.output ++ [OutputItem.perrorMsg s1.errno], errno := 0 })
    else
      (Outcome.ret r_val, { s1 with output := s1.output ++ [OutputItem.newline] })
  else
    (Outcome.proceed, p.2)

/-- Effectful silent CHECK_ERR_AND_EXIT. -/
def CHECK_ERR_AND_EXIT_silent_eff (eff : St → Int × St) (s : St) : Outcome × St :=
  let p := eff s
  if p.1 < 0 then (Outcome.exitFailure, p.2) else (Outcome.proceed, p.2)

/-- Effectful silent CHECK_ERR_AND_FREE. -/
def CHECK_ERR_AND_FREE_silent_eff (eff : St → Int × St) (s : St) (r_val : Int) : Outcome × St :=
  let p := eff s
  if p.1 < 0 then (Outcome.gotoFree, { p.2 with r := r_val }) else (Outcome.proceed, p.2)

/-- Effectful silent CHECK_ERR_AND_RETURN. -/
def CHECK_ERR_AND_RETURN_silent_eff (eff : St → Int × St) (s : St) (r_val : Int) : Outcome × St :=
  let p := eff s
  if p.1 < 0 then (Outcome.ret r_val, p.2) else (Outcome.proceed, p.2)

end Part000

namespace CUtilsH

/-- Verbose CHECK_ERR_AND_EXIT of the other revision (c_utils.h, lines
29-40); the body is textually identical to the later revision. -/
def CHECK_ERR_AND_EXIT_verbose (line : Nat) (s : St) (val : Int) : Outcome × St :=
  if val < 0 then
    let s1 : St := { s with output := s.output ++ [OutputItem.errorAtLine line] }
    if s1.errno > 0 then
      (Outcome.exitFailure, { s1 with output := s1.output ++ [OutputItem.perrorMsg s1.errno] })
    else
      (Outcome.exitFailure, { s1 with output := s1.output ++ [OutputItem.newline] })
  else
    (Outcome.proceed, s)

/-- Verbose CHECK_ERR_AND_FREE of the other revision (c_utils.h, lines
53-66). -/
def CHECK_ERR_AND_FREE_verbose (line : Nat) (s : St) (val r_val : Int) : Outcome × St :=
  if val < 0 then
    let s1 : St := { s with r := r_val }
    let s2 : St := { s1 with output := s1.output ++ [OutputItem.errorAtLine line] }
    if s2.errno > 0 then
      (Outcome.gotoFree,
        { s2 with output := s2.output ++ [OutputItem.perrorMsg s2.errno], errno := 0 })
    else
      (Outcome.gotoFree, { s2 with output := s2.output ++ [OutputItem.newline] })
  else
    (Outcome.proceed, s)

/-- Verbose CHECK_ERR_AND_RETURN of the other revision (c_utils.h, lines
78-90). -/
def CHECK_ERR_AND_RETURN_verbose (line : Nat) (s : St) (val r_val : Int) : Outcome × St :=
  if val < 0 then
    let s1 : St := { s with output := s.output ++ [OutputItem.errorAtLine line] }
    if s1.errno > 0 then
      (Outcome.ret r_val,
        { s1 with output := s1.output ++ [OutputItem.perrorMsg s1.errno], errno := 0 })
    else
      (Outcome.ret r_val, { s1 with output := s1.output ++ [OutputItem.newline] })
  else
    (Outcome.proceed, s)

/-- Silent CHECK_ERR_AND_EXIT of the other revision (c_utils.h, lines
101-102). -/
def CHECK_ERR_AND_EXIT_silent (s : St) (val : Int) : Outcome × St :=
  if val < 0 then (Outcome.exitFailure, s) else (Outcome.proceed, s)

/-- Silent CHECK_ERR_AND_FREE of the other revision (c_utils.h, lines
113-119). -/
def CHECK_ERR_AND_FREE_silent (s : St) (val r_val : Int) : Outcome × St :=
  if val < 0 then (Outcome.gotoFree, { s with r := r_val }) else (Outcome.proceed, s)

/-- Silent CHECK_ERR_AND_RETURN of the other revision (c_utils.h, lines
129-134). -/
def CHECK_ERR_AND_RETURN_silent (s : St) (val r_val : Int) : Outcome × St :=
  if val < 0 then (Outcome.ret r_val, s) else (Outcome.proceed, s)

end CUtilsH

/-- Claim C1: each check helper triggers its failure path exactly when
val < 0. When 0 ≤ val all three helpers, in both verbose and silent mode,
fall through with no output and no state change; when val < 0 the exit
variant terminates the process with EXIT_FAILURE, the jump variant sets the
caller variable r to r_val and transfers control to the label free, and the
return variant returns r_val from the enclosing function. -/
theorem C1_check_helpers (line : Nat) (s : St) (val r_val : Int) :
    (0 ≤ val →
      Part000.CHECK_ERR_AND_EXIT_verbose line s val = (Outcome.proceed, s) ∧
      Part000.CHECK_ERR_AND_EXIT_silent s val = (Outcome.proceed, s) ∧
      Part000.CHECK_ERR_AND_FREE_verbose line s val r_val = (Outcome.proceed, s) ∧
      Part000.CHECK_ERR_AND_FREE_silent s val r_val = (Outcome.proceed, s) ∧
      Part000.CHECK_ERR_AND_RETURN_verbose line s val r_val = (Outcome.proceed, s) ∧
      Part000.CHECK_ERR_AND_RETURN_silent s val r_val = (Outcome.proceed, s)) ∧
    (val < 0 →
      (Part000.CHECK_ERR_AND_EXIT_verbose line s val).1 = Outcome.exitFailure ∧
      (Part000.CHECK_ERR_AND_EXIT_silent s val).1 = Outcome.exitFailure ∧
      (Part000.CHECK_ERR_AND_FREE_verbose line s val r_val).1 = Outcome.gotoFree ∧
      (Part000.CHECK_ERR_AND_FREE_verbose line s val r_val).2.r = r_val ∧
      (Part000.CHECK_ERR_AND_FREE_silent s val r_val).1 = Outcome.gotoFree ∧
      (Part000.CHECK_ERR_AND_FREE_silent s val r_val).2.r = r_val ∧
      (Part000.CHECK_ERR_AND_RETURN_verbose line s val r_val).1 = Outcome.ret r_val ∧
      (Part000.CHECK_ERR_AND_RETURN_silent s val r_val).1 = Outcome.ret r_val) := by
  constructor
  · intro h
    have hn : ¬ val < 0 := not_lt.mpr h
    simp [Part000.CHECK_ERR_AND_EXIT_verbose, Part000.CHECK_ERR_AND_EXIT_silent,
      Part000.CHECK_ERR_AND_FREE_verbose, Part000.CHECK_ERR_AND_FREE_silent,
      Part000.CHECK_ERR_AND_RETURN_verbose, Part000.CHECK_ERR_AND_RETURN_silent, hn]
  · intro h
    by_cases he : s.errno > 0 <;>
      simp [Part000.CHECK_ERR_AND_EXIT_verbose, Part000.CHECK_ERR_AND_EXIT_silent,
        Part000.CHECK_ERR_AND_FREE_verbose, Part000.CHECK_ERR_AND_FREE_silent,
        Part000.CHECK_ERR_AND_RETURN_verbose, Part000.CHECK_ERR_AND_RETURN_silent, h, he]

/-- Witness for C1 at val = 1 (no-op case) and val = -1 (failure case). -/
theorem C1_check_helpers_witness :
    Part000.CHECK_ERR_AND_EXIT_verbose 7 ⟨0, 0, []⟩ 1 = (Outcome.proceed, ⟨0, 0, []⟩) ∧
    (Part000.CHECK_ERR_AND_FREE_verbose 7 ⟨0, 0, []⟩ (-1) 2).1 = Outcome.gotoFree := by
  have hpos := (C1_check_helpers 7 ⟨0, 0, []⟩ 1 2).1 (by decide)
  have hneg := (C1_check_helpers 7 ⟨0, 0, []⟩ (-1) 2).2 (by decide)
  exact ⟨hpos.1, hneg.2.2.1⟩

/-- Claim C2: when the clock read succeeds and a ≤ b, the value RAND_INT
writes to var lies in the inclusive range [a, b]: the nonnegative rand_r
value reduced modulo b - a + 1 lands in [0, b - a], and adding a lands in
[a, b]. -/
theorem C2_rand_int_in_range (ts : Timespec) (rand_r : Int → Nat) (a b : Int)
    (err : Option Int) (hab : a ≤ b) :
    a ≤ (Part000.RAND_INT (some ts) rand_r a b err).1 ∧
    (Part000.RAND_INT (some ts) rand_r a b err).1 ≤ b := by
  have hval : (Part000.RAND_INT (some ts) rand_r a b err).1
      = ((rand_r (ts.tv_sec * 1000000 + ts.tv_nsec) : Int) % (b - a + 1)) + a := rfl
  rw [hval]
  have h1 : 0 ≤ (rand_r (ts.tv_sec * 1000000 + ts.tv_nsec) : Int) % (b - a + 1) :=
    Int.emod_nonneg _ (by omega)
  have h2 : (rand_r (ts.tv_sec * 1000000 + ts.tv_nsec) : Int) % (b - a + 1) < b - a + 1 :=
    Int.emod_lt_of_pos _ (by omega)
  constructor <;> linarith

/-- Witness for C2 at bounds [3, 7] with a concrete clock and rand_r. -/
theorem C2_rand_int_in_range_witness :
    3 ≤ (Part000.RAND_INT (some ⟨0, 0⟩) (fun _ => 12345) 3 7 none).1 ∧
    (Part000.RAND_INT (some ⟨0, 0⟩) (fun _ => 12345) 3 7 none).1 ≤ 7 :=
  C2_rand_int_in_range ⟨0, 0⟩ (fun _ => 12345) 3 7 none (by decide)

/-- Claim C3: when the clock read fails, RAND_INT writes 0 to var; when the
err argument is non-null the int it points to is set to -1, and when it is
null nothing else is written. No random value is produced on this path. -/
theorem C3_rand_int_clock_failure (rand_r : Int → Nat) (a b e : Int) :
    Part000.RAND_INT none rand_r a b (some e) = (0, some (-1)) ∧
    Part000.RAND_INT none rand_r a b none = (0, none) :=
  ⟨rfl, rfl⟩

/-- Claim C4: MIN selects x when x ≤ y and y otherwise, MAX selects x when
x ≥ y and y otherwise; MIN and MAX always return one of their operands,
MIN is a lower bound and MAX an upper bound of both, both are idempotent,
and the concrete scenarios MIN 3 3 = 3 and MAX (-5) 2 = 2 hold. -/
theorem C4_min_max (x y : Int) :
    (x ≤ y → Part000.MIN x y = x) ∧
    (y < x → Part000.MIN x y = y) ∧
    (y ≤ x → Part000.MAX x y = x) ∧
    (x < y → Part000.MAX x y = y) ∧
    (Part000.MIN x y = x ∨ Part000.MIN x y = y) ∧
    Part000.MIN x y ≤ x ∧ Part000.MIN x y ≤ y ∧ Part000.MIN x x = x ∧
    (Part000.MAX x y = x ∨ Part000.MAX x y = y) ∧
    x ≤ Part000.MAX x y ∧ y ≤ Part000.MAX x y ∧ Part000.MAX x x = x ∧
    Part000.MIN 3 3 = 3 ∧ Part000.MAX (-5) 2 = 2 := by
  simp only [Part000.MIN, Part000.MAX]
  split_ifs <;> omega

/-- Witness for C4 at the pairs (3, 5) and (5, 3). -/
theorem C4_min_max_witness :
    Part000.MIN 3 5 = 3 ∧ Part000.MAX 3 5 = 5 ∧
    Part000.MIN 5 3 = 3 ∧ Part000.MAX 5 3 = 5 := by
  obtain ⟨h1, h2, h3, h4, -⟩ := C4_min_max 3 5
  obtain ⟨g1, g2, g3, g4, -⟩ := C4_min_max 5 3
  exact ⟨h1 (by decide), h4 (by decide), g2 (by decide), g3 (by decide)⟩

/-- Counterexample to claim C5 as stated: with errno = -1 on entry and a
negative value, the verbose jump and return helpers leave errno at -1, not
0, because the macro clears errno only in the errno > 0 branch. -/
theorem C5_errno_counterexample :
    ¬ ((Part000.CHECK_ERR_AND_FREE_verbose 7 ⟨-1, 0, []⟩ (-1) 2).2.errno = 0 ∧
       (Part000.CHECK_ERR_AND_RETURN_verbose 7 ⟨-1, 0, []⟩ (-1) 2).2.errno = 0) := by
  decide

/-- Claim C5 (amended): in verbose mode, for a negative value and a
nonnegative entering errno, CHECK_ERR_AND_FREE and CHECK_ERR_AND_RETURN
leave errno equal to 0 after the diagnostic report: a positive errno is
cleared by the perror branch and a zero errno is untouched. A negative
entering errno is left unchanged. -/
theorem C5_errno_cleared (line : Nat) (s : St) (val r_val : Int)
    (hval : val < 0) (herrno : 0 ≤ s.errno) :
    (Part000.CHECK_ERR_AND_FREE_verbose line s val r_val).2.errno = 0 ∧
    (Part000.CHECK_ERR_AND_RETURN_verbose line s val r_val).2.errno = 0 := by
  by_cases he : s.errno > 0
  · simp [Part000.CHECK_ERR_AND_FREE_verbose, Part000.CHECK_ERR_AND_RETURN_verbose,
      hval, he]
  · simp [Part000.CHECK_ERR_AND_FREE_verbose, Part000.CHECK_ERR_AND_RETURN_verbose,
      hval, he]
    omega

/-- Witness for C5 (amended) at errno = 5, val = -1. -/
theorem C5_errno_cleared_witness :
    (Part000.CHECK_ERR_AND_FREE_verbose 7 ⟨5, 0, []⟩ (-1) 2).2.errno = 0 ∧
    (Part000.CHECK_ERR_AND_RETURN_verbose 7 ⟨5, 0, []⟩ (-1) 2).2.errno = 0 :=
  C5_errno_cleared 7 ⟨5, 0, []⟩ (-1) 2 (by decide) (by decide)

/-- Claim C6: in every check helper, in both modes, the val argument is
evaluated exactly once whether or not the failure path is taken: running
the macro on an effectful argument expression eff equals evaluating eff
once and running the rest of the macro, which never re-evaluates it, on
the resulting value and post-state. -/
theorem C6_val_evaluated_once (line : Nat) (eff : St → Int × St) (s : St) (r_val : Int) :
    Part000.CHECK_ERR_AND_EXIT_verbose_eff line eff s
      = Part000.CHECK_ERR_AND_EXIT_verbose line (eff s).2 (eff s).1 ∧
    Part000.CHECK_ERR_AND_FREE_verbose_eff line eff s r_val
      = Part000.CHECK_ERR_AND_FREE_verbose line (eff s).2 (eff s).1 r_val ∧
    Part000.CHECK_ERR_AND_RETURN_verbose_eff line eff s r_val
      = Part000.CHECK_ERR_AND_RETURN_verbose line (eff s).2 (eff s).1 r_val ∧
    Part000.CHECK_ERR_AND_EXIT_silent_eff eff s
      = Part000.CHECK_ERR_AND_EXIT_silent (eff s).2 (eff s).1 ∧
    Part000.CHECK_ERR_AND_FREE_silent_eff eff s r_val
      = Part000.CHECK_ERR_AND_FREE_silent (eff s).2 (eff s).1 r_val ∧
    Part000.CHECK_ERR_AND_RETURN_silent_eff eff s r_val
      = Part000.CHECK_ERR_AND_RETURN_silent (eff s).2 (eff s).1 r_val :=
  ⟨rfl, rfl, rfl, rfl, rfl, rfl⟩

/-- Counterexample to claim C7 as stated: in the later revision the jump
and return helpers still take the explicit status parameter and their
behaviour depends on it (r_val = 2 and r_val = 7 produce different results),
so no revision consolidates the status to a fixed failure constant or
removes the parameter. -/
theorem C7_status_param_still_present :
    (Part000.CHECK_ERR_AND_FREE_silent ⟨0, 0, []⟩ (-1) 2).2.r = 2 ∧
    (Part000.CHECK_ERR_AND_FREE_silent ⟨0, 0, []⟩ (-1) 7).2.r = 7 ∧
    (Part000.CHECK_ERR_AND_RETURN_silent ⟨0, 0, []⟩ (-1) 2).1 = Outcome.ret 2 ∧
    (Part000.CHECK_ERR_AND_RETURN_silent ⟨0, 0, []⟩ (-1) 7).1 = Outcome.ret 7 ∧
    (2 : Int) ≠ 7 := by
  decide

/-- Claim C7 (amended): both revisions keep the explicit status parameter
on all helpers that have one, and the change between revisions is purely
an API-surface non-change for the check helpers: for every input, the two
revisions' helpers have identical behaviour in both modes (same condition,
same assignments, same output, same control transfer). -/
theorem C7_revisions_behaviorally_identical (line : Nat) (s : St) (val r_val : Int) :
    CUtilsH.CHECK_ERR_AND_EXIT_verbose line s val
      = Part000.CHECK_ERR_AND_EXIT_verbose line s val ∧
    CUtilsH.CHECK_ERR_AND_FREE_verbose line s val r_val
      = Part000.CHECK_ERR_AND_FREE_verbose line s val r_val ∧
    CUtilsH.CHECK_ERR_AND_RETURN_verbose line s val r_val
      = Part000.CHECK_ERR_AND_RETURN_verbose line s val r_val ∧
    CUtilsH.CHECK_ERR_AND_EXIT_silent s val
      = Part000.CHECK_ERR_AND_EXIT_silent s val ∧
    CUtilsH.CHECK_ERR_AND_FREE_silent s val r_val
      = Part000.CHECK_ERR_AND_FREE_silent s val r_val ∧
    CUtilsH.CHECK_ERR_AND_RETURN_silent s val r_val
      = Part000.CHECK_ERR_AND_RETURN_silent s val r_val :=
  ⟨rfl, rfl, rfl, rfl, rfl, rfl⟩

/-- Counterexample to claim C8 as stated: when the clock read fails,
RAND_INT with bounds 5, 5 and null err yields 0, not 5. -/
theorem C8_clock_failure_counterexample :
    (Part000.RAND_INT none (fun _ => 0) 5 5 none).1 ≠ 5 := by
  decide

/-- Claim C8 (amended): RAND_INT with bounds 5, 5 and null err yields 5
whenever the clock read succeeds, regardless of the clock reading and of
the rand_r value; when the clock read fails it yields 0. -/
theorem C8_rand_five_on_success (ts : Timespec) (rand_r : Int → Nat) :
    (Part000.RAND_INT (some ts) rand_r 5 5 none).1 = 5 ∧
    (Part000.RAND_INT none rand_r 5 5 none).1 = 0 := by
  constructor
  · show ((rand_r (ts.tv_sec * 1000000 + ts.tv_nsec) : Int) % (5 - 5 + 1)) + 5 = 5
    norm_num
  · rfl

/-- Claim C9: when the clock read succeeds, RAND_INT leaves the err
location unchanged for every err argument; err is written only on the
clock-failure path, so RAND_INT never signals success through err. -/
theorem C9_err_untouched_on_success (ts : Timespec) (rand_r : Int → Nat) (a b : Int)
    (err : Option Int) :
    (Part000.RAND_INT (some ts) rand_r a b err).2 = err :=
  rfl

/-- Claim C10: with a null err argument RAND_INT never writes through err
(the err component stays none on every path), and on clock failure it
writes 0 to var and performs no other observable write. -/
theorem C10_null_err_never_dereferenced (rand_r : Int → Nat) (a b : Int) :
    Part000.RAND_INT none rand_r a b none = (0, none) ∧
    ∀ clock : Option Timespec, (Part000.RAND_INT clock rand_r a b none).2 = none := by
  refine ⟨rfl, ?_⟩
  intro clock
  cases clock <;> rfl

end CUtils
